import Mathlib

/-
Verification of the MLS2MARKET visualization engine
(src/process/analytics_generator.py, class AnalyticsGenerator).

Shallow embedding conventions:
  * Python numbers (ints and floats flowing through the chart arithmetic)
    are modelled as rationals; the decimal literal 2.51 is the exact
    rational 251/100.
  * Python dicts that may lack keys become structures of Option fields;
    a top-level section that may be absent, present-as-None, or a mapping
    becomes a three-constructor inductive.
  * Code that can raise (KeyError on a missing "price" key, AttributeError
    from calling .get on None, ZeroDivisionError when the max price is 0)
    returns Except String.
  * The SVG strings are modelled as structured chart documents: each
    renderer either returns its fixed placeholder document (a distinguished
    constructor standing for the fixed literal string of the corresponding
    default method, hence byte-identical across calls) or a constructor
    carrying exactly the data interpolated into the SVG geometry.  Radar
    polygon vertices are kept in the polar form the source computes them
    in: the source stores score_radius = radius * (score / 100) and
    angle = 2 * pi * i / 6 - pi / 2 and converts to Cartesian coordinates
    with cos and sin; a vertex is therefore recorded as its score radius
    together with its angle index i.
-/

/-- A rating entry: a Python dict that may carry a "score" key
(the source reads ratings[key].get("score", 75)). -/
structure RatingEntry where
  score : Option ℚ
deriving DecidableEq, Repr

/-- The value found under the "ratings" key of the property record:
either None or a mapping from category keys to rating entries
(modelled as an association list with the dict's iteration order). -/
inductive RatingsVal
  | null
  | map (m : List (String × RatingEntry))
deriving DecidableEq, Repr

/-- The "ratings" field of a property record: absent, present as None,
or present as a mapping. -/
inductive RatingsField
  | absent
  | null
  | map (m : List (String × RatingEntry))
deriving DecidableEq, Repr

/-- A comparable sale: a Python dict that may carry "price" and
"price_per_sqft" keys. -/
structure CompSale where
  price : Option ℚ
  price_per_sqft : Option ℚ
deriving DecidableEq, Repr

/-- The contents of a valuation dict: the keys the engine reads, each
possibly missing. -/
structure ValuationData where
  listing_price : Option ℚ
  comparable_sales : Option (List CompSale)
  price_trend : Option String
deriving DecidableEq, Repr

/-- The value found under the "valuation" key: None or a dict. -/
inductive ValuationVal
  | null
  | dict (r : ValuationData)
deriving DecidableEq, Repr

/-- The "valuation" field of a property record: absent, None, or a dict. -/
inductive ValuationField
  | absent
  | null
  | dict (r : ValuationData)
deriving DecidableEq, Repr

/-- The property record handed to generate_all_charts: the four fields
the orchestrator reads, each possibly absent. -/
structure PropertyData where
  ratings : RatingsField
  valuation : ValuationField
  price : Option ℚ
  sqft : Option ℚ
deriving DecidableEq, Repr

/-- property_data.get("ratings", \x7b\x7d): an absent field defaults to the
empty dict, a stored None stays None. -/
def ratingsArg : RatingsField → RatingsVal
  | .absent => .map []
  | .null => .null
  | .map m => .map m

/-- property_data.get("valuation", \x7b\x7d): an absent field defaults to the
empty dict (all keys missing), a stored None stays None. -/
def valuationArg : ValuationField → ValuationVal
  | .absent => .dict { listing_price := none, comparable_sales := none, price_trend := none }
  | .null => .null
  | .dict r => .dict r

/-- Association-list lookup mirroring a Python dict key lookup. -/
def alistLookup (k : String) : List (String × RatingEntry) → Option RatingEntry
  | [] => none
  | (k2, v) :: rest => if k = k2 then some v else alistLookup k rest

/-- One vertex of the radar data polygon, in the polar form the source
computes before applying cos and sin: scoreRadius is
radius * (score / 100) and the angle is 2 * pi * angleIdx / 6 - pi / 2. -/
structure RadarPoint where
  angleIdx : ℕ
  scoreRadius : ℚ
  score : ℚ
deriving DecidableEq, Repr

/-- The radar chart document: the fixed placeholder or a chart carrying
the data polygon vertices in category order. -/
inductive RadarDoc
  | placeholder
  | chart (points : List RadarPoint)
deriving DecidableEq, Repr

/-- One bar of the valuation chart: its x position, its height
(value / max_price) * 150, whether it is the current-listing bar, and the
price printed above it. -/
structure Bar where
  x : ℚ
  height : ℚ
  isListing : Bool
  priceLabel : ℚ
deriving DecidableEq, Repr

/-- The valuation bar chart document. -/
inductive ValuationDoc
  | placeholder
  | chart (maxPrice : ℚ) (bars : List Bar)
deriving DecidableEq, Repr

/-- The price-per-sqft comparison document: the current price per sqft,
the average drawn as the dashed horizontal reference line, and the
comparable bars as (x, height) pairs with height pps / 2. -/
inductive ComparisonDoc
  | placeholder
  | chart (currentPps : ℚ) (avgPps : ℚ) (compBars : List (ℚ × ℚ))
deriving DecidableEq, Repr

/-- The market-trend document: fill color, the echoed trend text, and the
SVG path of the trend icon. -/
structure TrendDoc where
  color : String
  text : String
  glyphPath : String
deriving DecidableEq, Repr

/-- The investment gauge document: arc color, text label, the visible and
total lengths of the stroke dash-array, and the displayed score. -/
structure GaugeDoc where
  color : String
  label : String
  dashVisible : ℚ
  dashTotal : ℚ
  scoreText : ℚ
deriving DecidableEq, Repr

/-- The output of generate_all_charts: the five fixed chart keys. -/
structure Charts where
  ratings_radar : RadarDoc
  valuation_chart : ValuationDoc
  price_comparison : ComparisonDoc
  market_trend : TrendDoc
  investment_gauge : GaugeDoc
deriving DecidableEq, Repr

/-- default_radar_chart: the fixed "Rating data not available" SVG. -/
def default_radar_chart : RadarDoc := .placeholder

/-- default_bar_chart: the fixed "Comparable sales data not available" SVG. -/
def default_bar_chart : ValuationDoc := .placeholder

/-- default_comparison_chart: the fixed "Price comparison data not
available" SVG. -/
def default_comparison_chart : ComparisonDoc := .placeholder

/-- The fixed display category list of the radar chart. -/
def categories : List String :=
  ["Schools", "Safety", "Transport", "Amenities", "Investment", "Environment"]

/-- The fixed rating_map dict of generate_radar_chart, in its insertion
(iteration) order. -/
def rating_map : List (String × ℕ) :=
  [("school_quality", 0), ("safety", 1), ("transportation", 2),
   ("amenities", 3), ("investment_potential", 4), ("environment", 5)]

/-- Radar canvas: svg_width 400, svg_height 300, center (200, 150),
radius = min(center_x, center_y) - 40 = 110. -/
def radar_radius : ℚ := min (400 / 2) (300 / 2) - 40

/-- The scores list of generate_radar_chart: iterate rating_map in its
fixed order; for each key present in the input mapping take
ratings[key].get("score", 75), else append 75. -/
def radarScores (m : List (String × RatingEntry)) : List ℚ :=
  rating_map.map (fun kv =>
    match alistLookup kv.1 m with
    | some e => e.score.getD 75
    | none => 75)

/-- The data polygon loop of generate_radar_chart: for i, score in
enumerate(scores), the vertex has angle 2 * pi * i / 6 - pi / 2 (kept as
the index i) and radius radius * (score / 100). -/
def radarPoints (i : ℕ) : List ℚ → List RadarPoint
  | [] => []
  | score :: rest =>
    { angleIdx := i, scoreRadius := radar_radius * (score / 100), score := score }
      :: radarPoints (i + 1) rest

/-- generate_radar_chart: None and the empty mapping are both falsy, so
both return default_radar_chart; otherwise render the polygon from the
resolved scores. -/
def generate_radar_chart (ratings : RatingsVal) : RadarDoc :=
  match ratings with
  | .null => default_radar_chart
  | .map m =>
    if m.isEmpty then default_radar_chart
    else .chart (radarPoints 0 (radarScores m))

/-- The list comprehension [sale["price"] for sale in comparable_sales]:
raises KeyError at the first sale without a "price" key. -/
def extractPrices : List CompSale → Except String (List ℚ)
  | [] => .ok []
  | s :: rest =>
    match s.price with
    | none => .error "KeyError: price"
    | some p =>
      match extractPrices rest with
      | .error e => .error e
      | .ok ps => .ok (p :: ps)

/-- Python max over a list: raises ValueError on the empty list, else
folds max over the elements. -/
def pyMax : List ℚ → Except String ℚ
  | [] => .error "ValueError: max of empty sequence"
  | x :: xs => .ok (xs.foldl max x)

/-- The comparable-sales bar loop of generate_valuation_chart:
for i, sale in enumerate(comparable_sales), bar i sits at
x = padding + (i + 2) * spacing + (i + 1) * bar_width with height
(price / max_price) * 150, with padding 60 and bar_width 40. -/
def valuationCompBars (spacing max_price : ℚ) : ℕ → List ℚ → List Bar
  | _, [] => []
  | i, p :: rest =>
    { x := 60 + ((i : ℚ) + 2) * spacing + ((i : ℚ) + 1) * 40,
      height := (p / max_price) * 150,
      isListing := false,
      priceLabel := p } :: valuationCompBars spacing max_price (i + 1) rest

/-- The bar spacing of generate_valuation_chart for N comparables:
chart_width = svg_width - 2 * padding = 500 - 120 = 380,
available_width = chart_width - (N + 1) * bar_width,
spacing = available_width / (N + 2). -/
def valuationSpacing (n : ℕ) : ℚ :=
  ((500 - 2 * 60) - ((n : ℚ) + 1) * 40) / ((n : ℚ) + 2)

/-- generate_valuation_chart: empty comparable list returns
default_bar_chart; a sale without a "price" key raises KeyError while
computing max_price; max_price = 0 raises ZeroDivisionError at the first
bar-height division; otherwise the listing bar (leftmost, at
x = padding + spacing) is emitted first, then one bar per comparable. -/
def generate_valuation_chart (v : ValuationVal) : Except String ValuationDoc :=
  match v with
  | .null => .error "AttributeError: NoneType has no attribute get"
  | .dict r =>
    let comparable_sales := r.comparable_sales.getD []
    if comparable_sales.isEmpty then .ok default_bar_chart
    else
      match extractPrices comparable_sales with
      | .error e => .error e
      | .ok prices =>
        match pyMax (prices ++ [r.listing_price.getD 0]) with
        | .error e => .error e
        | .ok max_price =>
          if max_price = 0 then .error "ZeroDivisionError: division by zero"
          else
            let spacing := valuationSpacing comparable_sales.length
            let current_price := r.listing_price.getD 0
            let current_height := (current_price / max_price) * 150
            .ok (.chart max_price
              ({ x := 60 + spacing, height := current_height,
                 isListing := true, priceLabel := current_price }
                :: valuationCompBars spacing max_price 0 prices))

/-- The list comprehension [c["price_per_sqft"] for c in comparables]:
raises KeyError at the first comparable without that key. -/
def extractPps : List CompSale → Except String (List ℚ)
  | [] => .ok []
  | c :: rest =>
    match c.price_per_sqft with
    | none => .error "KeyError: price_per_sqft"
    | some p =>
      match extractPps rest with
      | .error e => .error e
      | .ok ps => .ok (p :: ps)

/-- The comparable bar loop of generate_price_comparison: bar i at
x = 150 + i * 70 with height pps / 2. -/
def ppsBars : ℕ → List ℚ → List (ℚ × ℚ)
  | _, [] => []
  | i, pps :: rest => (150 + (i : ℚ) * 70, pps / 2) :: ppsBars (i + 1) rest

/-- generate_price_comparison: if the comparable list is falsy or
current_sqft == 0 return default_comparison_chart; else
current_pps = current_price / current_sqft and the dashed reference line
sits at avg_pps = sum(comp_pps) / len(comp_pps). -/
def generate_price_comparison (comparables : List CompSale)
    (current_price current_sqft : ℚ) : Except String ComparisonDoc :=
  if comparables.isEmpty ∨ current_sqft = 0 then .ok default_comparison_chart
  else
    match extractPps comparables with
    | .error e => .error e
    | .ok comp_pps =>
      let current_pps := current_price / current_sqft
      let avg_pps := comp_pps.sum / (comp_pps.length : ℚ)
      .ok (.chart current_pps avg_pps (ppsBars 0 comp_pps))

/-- The trend_colors dict of generate_market_trend. -/
def trend_colors : List (String × String) :=
  [("Rising", "#48bb78"), ("Stable", "#fbbf24"),
   ("Declining", "#f56565"), ("Volatile", "#9f7aea")]

/-- Lookup in trend_colors with the default "#a0aec0" of dict.get. -/
def trendColorLookup (trend : String) : List (String × String) → String
  | [] => "#a0aec0"
  | (k, c) :: rest => if trend = k then c else trendColorLookup trend rest

/-- generate_market_trend: color from trend_colors with neutral default;
the icon path is an upward chevron for Rising, a flat line for Stable, a
downward chevron for Declining, and the zigzag for everything else
(Volatile included). Total: never raises. -/
def generate_market_trend (trend : String) : TrendDoc :=
  let color := trendColorLookup trend trend_colors
  let path :=
    if trend = "Rising" then "M60,65 L75,50 L90,65"
    else if trend = "Stable" then "M60,60 L75,60 L90,60"
    else if trend = "Declining" then "M60,50 L75,65 L90,50"
    else "M60,55 L68,65 L75,45 L82,65 L90,55"
  { color := color, text := trend, glyphPath := path }

/-- score_to_color: five-bucket step function on thresholds 90/80/70/60. -/
def score_to_color (score : ℚ) : String :=
  if score ≥ 90 then "#10B981"
  else if score ≥ 80 then "#34D399"
  else if score ≥ 70 then "#FBBF24"
  else if score ≥ 60 then "#F59E0B"
  else "#EF4444"

/-- score_to_label: the same thresholds mapped to text labels. -/
def score_to_label (score : ℚ) : String :=
  if score ≥ 90 then "Excellent"
  else if score ≥ 80 then "Very Good"
  else if score ≥ 70 then "Good"
  else if score ≥ 60 then "Fair"
  else "Needs Attention"

/-- generate_investment_gauge: stroke-dasharray is "score * 2.51, 251";
color and label come from the shared classification. The score is used
unclamped. -/
def generate_investment_gauge (score : ℚ) : GaugeDoc :=
  { color := score_to_color score,
    label := score_to_label score,
    dashVisible := score * (251 / 100),
    dashTotal := 251,
    scoreText := score }

/-- property_data.get("valuation", \x7b\x7d).get("comparable_sales", []):
raises AttributeError when the valuation section is None. -/
def comparableSalesOf : ValuationVal → Except String (List CompSale)
  | .null => .error "AttributeError: NoneType has no attribute get"
  | .dict r => .ok (r.comparable_sales.getD [])

/-- valuation.get("price_trend", "Stable"); AttributeError on None. -/
def priceTrendOf : ValuationVal → Except String String
  | .null => .error "AttributeError: NoneType has no attribute get"
  | .dict r => .ok (r.price_trend.getD "Stable")

/-- ratings.get("investment_potential", \x7b\x7d).get("score", 75);
AttributeError on a None ratings section. -/
def investmentScoreOf : RatingsVal → Except String ℚ
  | .null => .error "AttributeError: NoneType has no attribute get"
  | .map m =>
    .ok (match alistLookup "investment_potential" m with
         | some e => e.score.getD 75
         | none => 75)

/-- generate_all_charts: builds the five charts in source order; the first
raising sub-step aborts the call with that exception. -/
def generate_all_charts (d : PropertyData) : Except String Charts :=
  let rv := ratingsArg d.ratings
  let vv := valuationArg d.valuation
  let radar := generate_radar_chart rv
  match generate_valuation_chart vv with
  | .error e => .error e
  | .ok valuation =>
    match comparableSalesOf vv with
    | .error e => .error e
    | .ok comps =>
      match generate_price_comparison comps (d.price.getD 0) (d.sqft.getD 0) with
      | .error e => .error e
      | .ok comparison =>
        match priceTrendOf vv with
        | .error e => .error e
        | .ok trend =>
          match investmentScoreOf rv with
          | .error e => .error e
          | .ok score =>
            .ok { ratings_radar := radar,
                  valuation_chart := valuation,
                  price_comparison := comparison,
                  market_trend := generate_market_trend trend,
                  investment_gauge := generate_investment_gauge score }

/-- The ambient process state the module could observe: the module imports
datetime (wall clock) and no randomness source; no method of
AnalyticsGenerator reads either. The render wrapper threads this ambient
state explicitly so that independence from it is statable. -/
structure RenderEnv where
  now : ℕ
  randSeed : ℕ
deriving DecidableEq, Repr

/-- The engine entry point with the ambient state made explicit: the body
of generate_all_charts never consults it. -/
def render (_env : RenderEnv) (d : PropertyData) : Except String Charts :=
  generate_all_charts d

/-- The canonical rating key of radar category i in the fixed display
order Schools, Safety, Transport, Amenities, Investment, Environment.
Stated from the wording of the spec, to be compared with the iteration
the source performs over rating_map. -/
def specCategoryKey : ℕ → String
  | 0 => "school_quality"
  | 1 => "safety"
  | 2 => "transportation"
  | 3 => "amenities"
  | 4 => "investment_potential"
  | _ => "environment"

/-- The score the spec prescribes for radar category i: the entry score
when the canonical key is present in the mapping, else the default 75.
Stated from the wording of the spec. -/
def specCategoryScore (m : List (String × RatingEntry)) (i : ℕ) : ℚ :=
  match alistLookup (specCategoryKey i) m with
  | some e => e.score.getD 75
  | none => 75

/-- The comparable-sale list the orchestrator hands to the price
comparison, for a property whose valuation section is not None. -/
def compsOfProperty (d : PropertyData) : List CompSale :=
  match valuationArg d.valuation with
  | .null => []
  | .dict r => r.comparable_sales.getD []

/-- The listing price the valuation chart reads, with the 0 default. -/
def listingPriceOf (d : PropertyData) : ℚ :=
  match valuationArg d.valuation with
  | .null => 0
  | .dict r => r.listing_price.getD 0

/-- The normalization denominator the valuation chart computes:
max over the comparable prices and the listing price. -/
def maxPriceOf (d : PropertyData) : ℚ :=
  (pyMax ((compsOfProperty d).map (fun s => s.price.getD 0)
    ++ [listingPriceOf d])).toOption.getD 0

/-- The ratings mapping of the self-test data in main(). -/
def testRatings : List (String × RatingEntry) :=
  [("school_quality", { score := some 85 }),
   ("safety", { score := some 92 }),
   ("transportation", { score := some 78 }),
   ("amenities", { score := some 88 }),
   ("investment_potential", { score := some 82 }),
   ("environment", { score := some 90 })]

/-- The comparable sales of the self-test data in main(). -/
def testComparables : List CompSale :=
  [{ price := some 425000, price_per_sqft := some 225 },
   { price := some 460000, price_per_sqft := some 240 },
   { price := some 440000, price_per_sqft := some 230 }]

/-- The valuation section of the self-test data in main(). -/
def testValuation : ValuationData :=
  { listing_price := some 450000,
    comparable_sales := some testComparables,
    price_trend := some "Rising" }

/-- A fully populated property record: the main() self-test data extended
with the price 450000 and sqft 2000 of the spec examples. -/
def testProperty : PropertyData :=
  { ratings := .map testRatings,
    valuation := .dict testValuation,
    price := some 450000,
    sqft := some 2000 }

/-- A property record whose ratings section is present but None. -/
def nullRatingsProperty : PropertyData :=
  { ratings := .null, valuation := .absent, price := none, sqft := none }

/-- A valuation section in which every price is zero. -/
def zeroPriceValuation : ValuationData :=
  { listing_price := some 0,
    comparable_sales := some [{ price := some 0, price_per_sqft := none }],
    price_trend := none }

lemma foldl_max_spec (xs : List ℚ) (x : ℚ) :
    (xs.foldl max x = x ∨ xs.foldl max x ∈ xs) ∧
      x ≤ xs.foldl max x ∧ ∀ a ∈ xs, a ≤ xs.foldl max x := by
  induction xs generalizing x with
  | nil => simp
  | cons y ys ih =>
    obtain ⟨hmem, hle, hall⟩ := ih (max x y)
    refine ⟨?_, ?_, ?_⟩
    · rcases hmem with h | h
      · rcases max_choice x y with hxy | hxy
        · rw [hxy] at h
          exact Or.inl (by rw [List.foldl_cons, hxy]; exact h)
        · rw [hxy] at h
          refine Or.inr ?_
          simp [List.foldl_cons, hxy, h]
      · exact Or.inr (List.mem_cons_of_mem _ (by simpa using h))
    · exact le_trans (le_max_left x y) (by simpa using hle)
    · intro a ha
      rcases List.mem_cons.mp ha with rfl | ha
      · exact le_trans (le_max_right x a) (by simpa using hle)
      · simpa using hall a ha

lemma pyMax_ok (l : List ℚ) (h : l ≠ []) :
    ∃ m, pyMax l = .ok m ∧ m ∈ l ∧ ∀ a ∈ l, a ≤ m := by
  match l, h with
  | x :: xs, _ =>
    obtain ⟨hmem, hle, hall⟩ := foldl_max_spec xs x
    refine ⟨xs.foldl max x, rfl, ?_, ?_⟩
    · rcases hmem with h | h
      · simp [h]
      · exact List.mem_cons_of_mem _ h
    · intro a ha
      rcases List.mem_cons.mp ha with rfl | ha
      · exact hle
      · exact hall a ha

lemma extractPrices_ok (l : List CompSale) (h : ∀ s ∈ l, s.price.isSome) :
    extractPrices l = .ok (l.map (fun s => s.price.getD 0)) := by
  induction l with
  | nil => rfl
  | cons s rest ih =>
    obtain ⟨p, hp⟩ := Option.isSome_iff_exists.mp (h s (by simp))
    simp [extractPrices, hp, ih (fun a ha => h a (List.mem_cons_of_mem _ ha))]

lemma extractPps_ok (l : List CompSale) (h : ∀ c ∈ l, c.price_per_sqft.isSome) :
    extractPps l = .ok (l.map (fun c => c.price_per_sqft.getD 0)) := by
  induction l with
  | nil => rfl
  | cons c rest ih =>
    obtain ⟨p, hp⟩ := Option.isSome_iff_exists.mp (h c (by simp))
    simp [extractPps, hp, ih (fun a ha => h a (List.mem_cons_of_mem _ ha))]

/-- C5: score_to_color and score_to_label are total functions that
partition scores into exactly five contiguous buckets with boundaries
60/70/80/90 under closed-open semantics: a score at a threshold belongs to
the higher bucket (90 is Excellent with the strongest positive color, 80
shares a bucket with 85 and differs from 79, below 60 is Needs Attention
with the strongest negative color), and for every pair of scores the color
bucket and the label bucket agree. -/
theorem C5_score_buckets :
    (∀ s : ℚ,
      (s < 60 → score_to_color s = "#EF4444" ∧ score_to_label s = "Needs Attention") ∧
      (60 ≤ s → s < 70 → score_to_color s = "#F59E0B" ∧ score_to_label s = "Fair") ∧
      (70 ≤ s → s < 80 → score_to_color s = "#FBBF24" ∧ score_to_label s = "Good") ∧
      (80 ≤ s → s < 90 → score_to_color s = "#34D399" ∧ score_to_label s = "Very Good") ∧
      (90 ≤ s → score_to_color s = "#10B981" ∧ score_to_label s = "Excellent")) ∧
    (∀ s t : ℚ, score_to_color s = score_to_color t ↔ score_to_label s = score_to_label t) ∧
    (score_to_label 90 = "Excellent" ∧ score_to_color 90 = "#10B981") ∧
    (score_to_label 80 = score_to_label 85 ∧ score_to_color 80 = score_to_color 85) ∧
    (score_to_label 80 ≠ score_to_label 79 ∧ score_to_color 80 ≠ score_to_color 79) := by
  refine ⟨?_, ?_, ?_, ?_, ?_⟩
  · intro s
    unfold score_to_color score_to_label
    refine ⟨?_, ?_, ?_, ?_, ?_⟩ <;>
      · intros
        split_ifs
        all_goals first | exact ⟨rfl, rfl⟩ | (exfalso; linarith)
  · intro s t
    unfold score_to_color score_to_label
    split_ifs <;> decide
  · exact ⟨by norm_num [score_to_label], by norm_num [score_to_color]⟩
  · exact ⟨by norm_num [score_to_label], by norm_num [score_to_color]⟩
  · constructor
    · norm_num [score_to_label]
      decide
    · norm_num [score_to_color]
      decide

/-- C5 witness: the theorem instantiated at concrete scores, with its
bucket hypotheses discharged. -/
theorem C5_score_buckets_witness :
    (score_to_color 55 = "#EF4444" ∧ score_to_label 55 = "Needs Attention") ∧
    (score_to_color 95 = "#10B981" ∧ score_to_label 95 = "Excellent") :=
  ⟨(C5_score_buckets.1 55).1 (by norm_num),
   (C5_score_buckets.1 95).2.2.2.2 (by norm_num)⟩

/-- C6: the investment gauge foreground arc uses a dash-array whose
visible length is score * 2.51 of a 251-unit total, and its color and
label come from the shared score classification; at score 82 the color
and label equal the Very Good bucket shared by every score in [80, 90)
and the visible dash length is 82 * 2.51. -/
theorem C6_investment_gauge :
    (∀ score : ℚ,
      (generate_investment_gauge score).color = score_to_color score ∧
      (generate_investment_gauge score).label = score_to_label score ∧
      (generate_investment_gauge score).dashVisible = score * (251 / 100) ∧
      (generate_investment_gauge score).dashTotal = 251) ∧
    (∀ s : ℚ, 80 ≤ s → s < 90 →
      score_to_color s = (generate_investment_gauge 82).color ∧
      score_to_label s = (generate_investment_gauge 82).label) ∧
    (generate_investment_gauge 82).color = "#34D399" ∧
    (generate_investment_gauge 82).label = "Very Good" ∧
    (generate_investment_gauge 82).dashVisible = 82 * (251 / 100) := by
  refine ⟨fun score => ⟨rfl, rfl, rfl, rfl⟩, ?_,
    by norm_num [generate_investment_gauge, score_to_color],
    by norm_num [generate_investment_gauge, score_to_label], rfl⟩
  intro s h1 h2
  unfold generate_investment_gauge score_to_color score_to_label
  split_ifs
  all_goals first | exact ⟨rfl, rfl⟩ | (exfalso; linarith)

/-- C6 witness: the bucket clause instantiated at score 85. -/
theorem C6_investment_gauge_witness :
    score_to_color 85 = (generate_investment_gauge 82).color ∧
    score_to_label 85 = (generate_investment_gauge 82).label :=
  C6_investment_gauge.2.1 85 (by norm_num) (by norm_num)

/-- C9: the market-trend renderer maps Rising to the upward chevron,
Declining to the downward chevron, Stable to the flat line, and Volatile
to the zigzag, each with its fixed color; every string outside the enum
renders the zigzag with the neutral color, and the renderer is total. -/
theorem C9_market_trend_mapping :
    ((generate_market_trend "Rising").color = "#48bb78" ∧
      (generate_market_trend "Rising").glyphPath = "M60,65 L75,50 L90,65") ∧
    ((generate_market_trend "Declining").color = "#f56565" ∧
      (generate_market_trend "Declining").glyphPath = "M60,50 L75,65 L90,50") ∧
    ((generate_market_trend "Stable").color = "#fbbf24" ∧
      (generate_market_trend "Stable").glyphPath = "M60,60 L75,60 L90,60") ∧
    ((generate_market_trend "Volatile").color = "#9f7aea" ∧
      (generate_market_trend "Volatile").glyphPath = "M60,55 L68,65 L75,45 L82,65 L90,55") ∧
    (∀ t : String, t ∉ ["Rising", "Stable", "Declining", "Volatile"] →
      (generate_market_trend t).color = "#a0aec0" ∧
      (generate_market_trend t).glyphPath = "M60,55 L68,65 L75,45 L82,65 L90,55") := by
  refine ⟨⟨by decide, by decide⟩, ⟨by decide, by decide⟩, ⟨by decide, by decide⟩,
    ⟨by decide, by decide⟩, ?_⟩
  intro t ht
  simp only [List.mem_cons, List.mem_singleton, not_or] at ht
  obtain ⟨h1, h2, h3, h4⟩ := ht
  constructor
  · simp [generate_market_trend, trendColorLookup, trend_colors, h1, h2, h3, h4]
  · simp [generate_market_trend, h1, h2, h3]

/-- C9 witness: the fallback clause instantiated at the unrecognized
trend string of the spec example. -/
theorem C9_market_trend_mapping_witness :
    (generate_market_trend "Skyrocketing").color = "#a0aec0" ∧
    (generate_market_trend "Skyrocketing").glyphPath = "M60,55 L68,65 L75,45 L82,65 L90,55" :=
  C9_market_trend_mapping.2.2.2.2 "Skyrocketing" (by decide)

/-- C10: the engine is deterministic: the output of render depends only on
the property record, not on the ambient process state (wall clock,
randomness seed), so two calls with the same input produce identical
output maps. -/
theorem C10_render_deterministic (e1 e2 : RenderEnv) (d : PropertyData) :
    render e1 d = render e2 d := rfl

/-- C1 counterexample: the claim promises that the orchestrator raises no
exception under any input shape, naming a null ratings section as one such
shape; but on a record whose ratings key holds None the gauge step reads
ratings.get("investment_potential").get("score") on None and the call
aborts with an AttributeError instead of returning the output map. -/
theorem C1_counterexample :
    generate_all_charts nullRatingsProperty =
      Except.error "AttributeError: NoneType has no attribute get" := rfl

/-- C2 counterexample: the claim says a present-but-empty ratings mapping
yields the default-75 polygon rather than the placeholder; but the source
guard is falsy on the empty mapping too, so the empty mapping returns the
very placeholder document, not a polygon chart. -/
theorem C2_counterexample :
    generate_radar_chart (RatingsVal.map []) = RadarDoc.placeholder ∧
    RadarDoc.placeholder ≠ RadarDoc.chart (radarPoints 0 (radarScores [])) :=
  ⟨rfl, by simp⟩

/-- C2 amended: absent, None, and present-but-empty ratings all yield the
same fixed placeholder document (absent and empty are not distinguished);
any non-empty ratings mapping, even one with no recognized category key,
yields the normal radar chart, whose scores all default to 75 when no
canonical key is present, and that chart is not the placeholder. -/
theorem C2_radar_absent_vs_empty (m : List (String × RatingEntry)) (hm : m ≠ []) :
    generate_radar_chart (ratingsArg .absent) = default_radar_chart ∧
    generate_radar_chart .null = default_radar_chart ∧
    generate_radar_chart (.map []) = default_radar_chart ∧
    generate_radar_chart (.map m) = .chart (radarPoints 0 (radarScores m)) ∧
    ((∀ kv ∈ rating_map, alistLookup kv.1 m = none) →
      radarScores m = [75, 75, 75, 75, 75, 75]) ∧
    RadarDoc.chart (radarPoints 0 (radarScores m)) ≠ default_radar_chart := by
  refine ⟨rfl, rfl, rfl, ?_, ?_, by simp [default_radar_chart]⟩
  · cases m with
    | nil => exact absurd rfl hm
    | cons a l => rfl
  · intro h
    have h1 := h ("school_quality", 0) (by simp [rating_map])
    have h2 := h ("safety", 1) (by simp [rating_map])
    have h3 := h ("transportation", 2) (by simp [rating_map])
    have h4 := h ("amenities", 3) (by simp [rating_map])
    have h5 := h ("investment_potential", 4) (by simp [rating_map])
    have h6 := h ("environment", 5) (by simp [rating_map])
    simp [radarScores, rating_map, h1, h2, h3, h4, h5, h6]

/-- C2 witness: the amended theorem instantiated at a one-key mapping with
an unrecognized key: the chart renders (not the placeholder) and all six
scores are the default 75. -/
theorem C2_radar_absent_vs_empty_witness :
    generate_radar_chart (RatingsVal.map [("listing_quality", { score := some 90 })]) =
      RadarDoc.chart (radarPoints 0 (radarScores [("listing_quality", { score := some 90 })])) ∧
    radarScores [("listing_quality", { score := some 90 })] = [75, 75, 75, 75, 75, 75] :=
  ⟨(C2_radar_absent_vs_empty [("listing_quality", { score := some 90 })] (by simp)).2.2.2.1,
   (C2_radar_absent_vs_empty [("listing_quality", { score := some 90 })] (by simp)).2.2.2.2.1
     (by decide)⟩

/-- C8: the hardening the claim asserts is not implemented. The division
by max price is unguarded: a valuation whose prices are all zero aborts
with ZeroDivisionError. Scores are not clamped: score 150 yields a gauge
dash length 376.5 exceeding the 251-unit arc, a negative score yields a
negative dash length, and score 150 puts the radar vertex at radius 165,
beyond the 110 outer radius. -/
theorem C8_unguarded_division_and_unclamped_scores :
    generate_valuation_chart (ValuationVal.dict zeroPriceValuation) =
      Except.error "ZeroDivisionError: division by zero" ∧
    (generate_investment_gauge 150).dashVisible = 376.5 ∧
    (generate_investment_gauge 150).dashTotal < (generate_investment_gauge 150).dashVisible ∧
    (generate_investment_gauge (-10)).dashVisible < 0 ∧
    ((radarPoints 0 (radarScores [("safety", { score := some 150 })])).getD 1
        { angleIdx := 0, scoreRadius := 0, score := 0 }).scoreRadius = 165 ∧
    radar_radius < 165 := by
  refine ⟨rfl, ?_, ?_, ?_, ?_, ?_⟩
  · norm_num [generate_investment_gauge]
  · norm_num [generate_investment_gauge]
  · norm_num [generate_investment_gauge]
  · norm_num [radarPoints, radarScores, rating_map, alistLookup, radar_radius, List.getD]
  · norm_num [radar_radius]

/-- C3: for every present non-empty ratings mapping the radar data polygon
has exactly 6 vertices; the vertex of category i carries the angle index i
(the source draws it at angle 2 * pi * i / 6 - pi / 2) and the polar
radius radius * (score / 100), where the score of category i is resolved
through the fixed category order by its canonical key, independent of the
mapping's own iteration order, and every category whose canonical key is
missing from the mapping uses the default score 75. -/
theorem C3_radar_polygon_geometry (m : List (String × RatingEntry)) (hm : m ≠ []) :
    ∃ pts, generate_radar_chart (.map m) = RadarDoc.chart pts ∧
      pts.length = 6 ∧
      ∀ i, i < 6 →
        (pts.getD i { angleIdx := 0, scoreRadius := 0, score := 0 }).angleIdx = i ∧
        (pts.getD i { angleIdx := 0, scoreRadius := 0, score := 0 }).scoreRadius
          = radar_radius * (specCategoryScore m i / 100) ∧
        (pts.getD i { angleIdx := 0, scoreRadius := 0, score := 0 }).score
          = specCategoryScore m i ∧
        (alistLookup (specCategoryKey i) m = none →
          (pts.getD i { angleIdx := 0, scoreRadius := 0, score := 0 }).score = 75) := by
  have hs : radarScores m =
      [specCategoryScore m 0, specCategoryScore m 1, specCategoryScore m 2,
       specCategoryScore m 3, specCategoryScore m 4, specCategoryScore m 5] := rfl
  have hp : radarPoints 0 (radarScores m) =
      [{ angleIdx := 0, scoreRadius := radar_radius * (specCategoryScore m 0 / 100),
         score := specCategoryScore m 0 },
       { angleIdx := 1, scoreRadius := radar_radius * (specCategoryScore m 1 / 100),
         score := specCategoryScore m 1 },
       { angleIdx := 2, scoreRadius := radar_radius * (specCategoryScore m 2 / 100),
         score := specCategoryScore m 2 },
       { angleIdx := 3, scoreRadius := radar_radius * (specCategoryScore m 3 / 100),
         score := specCategoryScore m 3 },
       { angleIdx := 4, scoreRadius := radar_radius * (specCategoryScore m 4 / 100),
         score := specCategoryScore m 4 },
       { angleIdx := 5, scoreRadius := radar_radius * (specCategoryScore m 5 / 100),
         score := specCategoryScore m 5 }] := by
    rw [hs]
    rfl
  refine ⟨radarPoints 0 (radarScores m), ?_, by rw [hp]; rfl, ?_⟩
  · cases m with
    | nil => exact absurd rfl hm
    | cons a l => rfl
  · intro i hi
    rw [hp]
    interval_cases i <;>
      exact ⟨rfl, rfl, rfl, fun hnone => by simp [specCategoryScore, hnone]⟩

/-- C3 witness: the theorem instantiated at the fully populated self-test
ratings mapping. -/
theorem C3_radar_polygon_geometry_witness :
    ∃ pts, generate_radar_chart (.map testRatings) = RadarDoc.chart pts ∧
      pts.length = 6 ∧
      ∀ i, i < 6 →
        (pts.getD i { angleIdx := 0, scoreRadius := 0, score := 0 }).angleIdx = i ∧
        (pts.getD i { angleIdx := 0, scoreRadius := 0, score := 0 }).scoreRadius
          = radar_radius * (specCategoryScore testRatings i / 100) ∧
        (pts.getD i { angleIdx := 0, scoreRadius := 0, score := 0 }).score
          = specCategoryScore testRatings i ∧
        (alistLookup (specCategoryKey i) testRatings = none →
          (pts.getD i { angleIdx := 0, scoreRadius := 0, score := 0 }).score = 75) :=
  C3_radar_polygon_geometry testRatings (by simp [testRatings])

lemma valuationCompBars_length (spacing mp : ℚ) :
    ∀ (i : ℕ) (l : List ℚ), (valuationCompBars spacing mp i l).length = l.length := by
  intro i l
  induction l generalizing i with
  | nil => rfl
  | cons p rest ih => simp [valuationCompBars, ih]

lemma valuationCompBars_mem (spacing mp : ℚ) :
    ∀ (i : ℕ) (l : List ℚ) (b : Bar), b ∈ valuationCompBars spacing mp i l →
      ∃ (j : ℕ) (p : ℚ), p ∈ l ∧ i ≤ j ∧
        b = { x := 60 + ((j : ℚ) + 2) * spacing + ((j : ℚ) + 1) * 40,
              height := (p / mp) * 150, isListing := false, priceLabel := p } := by
  intro i l
  induction l generalizing i with
  | nil => intro b hb; simp [valuationCompBars] at hb
  | cons p rest ih =>
    intro b hb
    rw [valuationCompBars] at hb
    rcases List.mem_cons.mp hb with rfl | hb
    · exact ⟨i, p, by simp, le_refl i, rfl⟩
    · obtain ⟨j, q, hq, hij, rfl⟩ := ih (i + 1) b hb
      exact ⟨j, q, List.mem_cons_of_mem _ hq, by omega, rfl⟩

lemma valuationSpacing_add40_pos (n : ℕ) : 0 < valuationSpacing n + 40 := by
  have h2 : ((n : ℚ) + 2) ≠ 0 := by positivity
  have key : valuationSpacing n + 40 = 420 / ((n : ℚ) + 2) := by
    unfold valuationSpacing
    field_simp
    ring
  rw [key]
  positivity

lemma generate_valuation_chart_eq (r : ValuationData) (mp : ℚ)
    (hne : r.comparable_sales.getD [] ≠ [])
    (hp : ∀ s ∈ r.comparable_sales.getD [], s.price.isSome)
    (hmp : pyMax ((r.comparable_sales.getD []).map (fun s => s.price.getD 0)
        ++ [r.listing_price.getD 0]) = .ok mp)
    (hnz : mp ≠ 0) :
    generate_valuation_chart (.dict r) =
      .ok (.chart mp
        ({ x := 60 + valuationSpacing (r.comparable_sales.getD []).length,
           height := (r.listing_price.getD 0 / mp) * 150,
           isListing := true, priceLabel := r.listing_price.getD 0 }
          :: valuationCompBars (valuationSpacing (r.comparable_sales.getD []).length) mp 0
              ((r.comparable_sales.getD []).map (fun s => s.price.getD 0)))) := by
  have hie : (r.comparable_sales.getD []).isEmpty = false := by
    cases h : r.comparable_sales.getD [] with
    | nil => exact absurd h hne
    | cons a l => rfl
  simp only [generate_valuation_chart, hie, Bool.false_eq_true, if_false,
    extractPrices_ok _ hp, hmp, if_neg hnz]

/-- C4: for every non-empty comparable-sales list (all entries carrying a
price, with a positive maximum) the valuation chart normalizes by
maxPrice = max(all comparable prices, listing price): every bar height
equals (value / maxPrice) * 150 and never exceeds the 150-unit plot
height, there are N + 1 bars with the distinguished listing bar first and
strictly leftmost; and on the spec example (comparables 425000, 460000,
440000 with listing price 450000) maxPrice is 460000, the listing bar
height is exactly (450000 / 460000) * 150, and exactly 4 bars are drawn. -/
theorem C4_valuation_chart_normalization :
    (∀ (r : ValuationData) (mp : ℚ),
      r.comparable_sales.getD [] ≠ [] →
      (∀ s ∈ r.comparable_sales.getD [], s.price.isSome) →
      pyMax ((r.comparable_sales.getD []).map (fun s => s.price.getD 0)
        ++ [r.listing_price.getD 0]) = .ok mp →
      0 < mp →
      ∃ bars, generate_valuation_chart (.dict r) = .ok (.chart mp bars) ∧
        bars.length = (r.comparable_sales.getD []).length + 1 ∧
        (∀ b ∈ bars, b.height = (b.priceLabel / mp) * 150 ∧ b.height ≤ 150) ∧
        (∃ b0 rest, bars = b0 :: rest ∧ b0.isListing = true ∧
          b0.priceLabel = r.listing_price.getD 0 ∧
          ∀ b ∈ rest, b.isListing = false ∧ b0.x < b.x) ∧
        (∀ a ∈ (r.comparable_sales.getD []).map (fun s => s.price.getD 0)
            ++ [r.listing_price.getD 0], a ≤ mp) ∧
        mp ∈ (r.comparable_sales.getD []).map (fun s => s.price.getD 0)
            ++ [r.listing_price.getD 0]) ∧
    generate_valuation_chart (.dict testValuation) =
      .ok (.chart 460000
        [{ x := 104, height := (450000 / 460000) * 150, isListing := true,
           priceLabel := 450000 },
         { x := 188, height := (425000 / 460000) * 150, isListing := false,
           priceLabel := 425000 },
         { x := 272, height := (460000 / 460000) * 150, isListing := false,
           priceLabel := 460000 },
         { x := 356, height := (440000 / 460000) * 150, isListing := false,
           priceLabel := 440000 }]) := by
  constructor
  · intro r mp hne hp hmp hpos
    have hnz : mp ≠ 0 := hpos.ne'
    obtain ⟨m2, hm2, hmem, hall⟩ :=
      pyMax_ok ((r.comparable_sales.getD []).map (fun s => s.price.getD 0)
        ++ [r.listing_price.getD 0]) (by simp)
    rw [hmp] at hm2
    obtain rfl : mp = m2 := by
      cases hm2
      rfl
    set sales := r.comparable_sales.getD [] with hsales
    set spacing := valuationSpacing sales.length with hspdef
    have hsp40 : 0 < spacing + 40 := valuationSpacing_add40_pos sales.length
    refine ⟨_, generate_valuation_chart_eq r mp hne hp hmp hnz, ?_, ?_, ?_, hall, hmem⟩
    · simp [valuationCompBars_length]
    · intro b hb
      rcases List.mem_cons.mp hb with rfl | hb
      · refine ⟨rfl, ?_⟩
        have hle : r.listing_price.getD 0 ≤ mp := hall _ (by simp)
        have h1 : r.listing_price.getD 0 / mp ≤ 1 := (div_le_one hpos).mpr hle
        calc (r.listing_price.getD 0 / mp) * 150 ≤ 1 * 150 :=
              mul_le_mul_of_nonneg_right h1 (by norm_num)
          _ = 150 := by norm_num
      · obtain ⟨j, p, hpmem, _, rfl⟩ := valuationCompBars_mem spacing mp 0 _ b hb
        refine ⟨rfl, ?_⟩
        have hle : p ≤ mp := hall _ (List.mem_append_left _ hpmem)
        have h1 : p / mp ≤ 1 := (div_le_one hpos).mpr hle
        calc (p / mp) * 150 ≤ 1 * 150 := mul_le_mul_of_nonneg_right h1 (by norm_num)
          _ = 150 := by norm_num
    · refine ⟨_, _, rfl, rfl, rfl, ?_⟩
      intro b hb
      obtain ⟨j, p, hpmem, _, rfl⟩ := valuationCompBars_mem spacing mp 0 _ b hb
      refine ⟨rfl, ?_⟩
      have hj : (0 : ℚ) ≤ (j : ℚ) := Nat.cast_nonneg j
      have hprod : 0 < ((j : ℚ) + 1) * (spacing + 40) := by positivity
      simp only
      nlinarith [hprod]
  · have hmp : pyMax ((testValuation.comparable_sales.getD []).map (fun s => s.price.getD 0)
        ++ [testValuation.listing_price.getD 0]) = .ok 460000 := by
      simp [testValuation, testComparables, pyMax, max_def]
      norm_num
    have h := generate_valuation_chart_eq testValuation 460000
      (by simp [testValuation, testComparables])
      (by simp [testValuation, testComparables]) hmp (by norm_num)
    rw [h]
    simp only [testValuation, testComparables, valuationCompBars, valuationSpacing]
    norm_num [valuationCompBars]

/-- C4 witness: the normalization clause instantiated at the self-test
valuation record. -/
theorem C4_valuation_chart_normalization_witness :
    ∃ bars, generate_valuation_chart (.dict testValuation) = .ok (.chart 460000 bars) ∧
      bars.length = (testValuation.comparable_sales.getD []).length + 1 ∧
      (∀ b ∈ bars, b.height = (b.priceLabel / 460000) * 150 ∧ b.height ≤ 150) ∧
      (∃ b0 rest, bars = b0 :: rest ∧ b0.isListing = true ∧
        b0.priceLabel = testValuation.listing_price.getD 0 ∧
        ∀ b ∈ rest, b.isListing = false ∧ b0.x < b.x) ∧
      (∀ a ∈ (testValuation.comparable_sales.getD []).map (fun s => s.price.getD 0)
          ++ [testValuation.listing_price.getD 0], a ≤ 460000) ∧
      (460000 : ℚ) ∈ (testValuation.comparable_sales.getD []).map (fun s => s.price.getD 0)
          ++ [testValuation.listing_price.getD 0] :=
  C4_valuation_chart_normalization.1 testValuation 460000
    (by simp [testValuation, testComparables])
    (by simp [testValuation, testComparables])
    (by rfl)
    (by norm_num)

/-- C7: the price-per-area renderer returns the fixed placeholder document
whenever the comparable list is empty or the current size is zero (so the
division by size is never reached); otherwise (all comparables carrying a
price-per-sqft figure) it computes the current price per unit area as
price / size and places the dashed horizontal reference line at the
arithmetic mean of the comparable price-per-sqft values; on the spec
example (price 450000, sqft 2000) the current value is exactly 225. -/
theorem C7_price_comparison_guards :
    (∀ (comparables : List CompSale) (price sqft : ℚ),
      comparables = [] ∨ sqft = 0 →
      generate_price_comparison comparables price sqft = .ok default_comparison_chart) ∧
    (∀ (comparables : List CompSale) (price sqft : ℚ),
      comparables ≠ [] → sqft ≠ 0 →
      (∀ c ∈ comparables, c.price_per_sqft.isSome) →
      generate_price_comparison comparables price sqft =
        .ok (.chart (price / sqft)
          ((comparables.map (fun c => c.price_per_sqft.getD 0)).sum
            / ((comparables.length : ℚ)))
          (ppsBars 0 (comparables.map (fun c => c.price_per_sqft.getD 0))))) ∧
    generate_price_comparison testComparables 450000 2000 =
      .ok (.chart 225 (695 / 3) [(150, 225 / 2), (220, 120), (290, 115)]) := by
  refine ⟨?_, ?_, ?_⟩
  · intro comparables price sqft h
    rcases h with rfl | rfl
    · simp [generate_price_comparison]
    · simp [generate_price_comparison]
  · intro comparables price sqft hc hs hall
    have hie : comparables.isEmpty = false := by
      cases h : comparables with
      | nil => exact absurd h hc
      | cons a l => rfl
    simp [generate_price_comparison, hie, hs, extractPps_ok _ hall]
  · have hall : ∀ c ∈ testComparables, c.price_per_sqft.isSome := by
      simp [testComparables]
    have hie : testComparables.isEmpty = false := rfl
    simp only [generate_price_comparison, hie, Bool.false_eq_true, false_or,
      extractPps_ok _ hall]
    norm_num [testComparables, ppsBars]

/-- C7 witness: the placeholder clause at an empty comparable list and at
a zero size, and the computing clause at the spec example inputs. -/
theorem C7_price_comparison_guards_witness :
    generate_price_comparison [] 450000 2000 = .ok default_comparison_chart ∧
    generate_price_comparison testComparables 450000 0 = .ok default_comparison_chart ∧
    generate_price_comparison testComparables 450000 2000 =
      .ok (.chart (450000 / 2000)
        ((testComparables.map (fun c => c.price_per_sqft.getD 0)).sum
          / ((testComparables.length : ℚ)))
        (ppsBars 0 (testComparables.map (fun c => c.price_per_sqft.getD 0)))) :=
  ⟨C7_price_comparison_guards.1 [] 450000 2000 (Or.inl rfl),
   C7_price_comparison_guards.1 testComparables 450000 0 (Or.inr rfl),
   C7_price_comparison_guards.2.1 testComparables 450000 2000
     (by simp [testComparables]) (by norm_num) (by simp [testComparables])⟩

lemma price_comparison_ok (l : List CompSale) (p q : ℚ)
    (h : l ≠ [] → q ≠ 0 → ∀ c ∈ l, c.price_per_sqft.isSome) :
    ∃ c, generate_price_comparison l p q = .ok c := by
  by_cases hl : l = []
  · subst hl
    exact ⟨_, by simp [generate_price_comparison]; rfl⟩
  · by_cases hq : q = 0
    · subst hq
      exact ⟨_, by simp [generate_price_comparison]; rfl⟩
    · have hie : l.isEmpty = false := by
        cases hc : l with
        | nil => exact absurd hc hl
        | cons a t => rfl
      exact ⟨_, by
        simp [generate_price_comparison, hie, hq, extractPps_ok _ (h hl hq)]; rfl⟩

lemma valuation_chart_ok (r : ValuationData)
    (hp : ∀ s ∈ r.comparable_sales.getD [], s.price.isSome)
    (hmax : r.comparable_sales.getD [] ≠ [] →
      (pyMax ((r.comparable_sales.getD []).map (fun s => s.price.getD 0)
        ++ [r.listing_price.getD 0])).toOption.getD 0 ≠ 0) :
    ∃ v, generate_valuation_chart (.dict r) = .ok v := by
  by_cases hne : r.comparable_sales.getD [] = []
  · refine ⟨default_bar_chart, ?_⟩
    simp [generate_valuation_chart, hne]
  · obtain ⟨mp, hmp, _, _⟩ := pyMax_ok
      ((r.comparable_sales.getD []).map (fun s => s.price.getD 0)
        ++ [r.listing_price.getD 0]) (by simp)
    have hnz : mp ≠ 0 := by
      have h0 := hmax hne
      rw [hmp] at h0
      simpa [Except.toOption] using h0
    exact ⟨_, generate_valuation_chart_eq r mp hne hp hmp hnz⟩

/-- C1 amended: the orchestrator raises no exception and returns the full
five-chart output map for every input whose nested structures are
well-formed: the ratings and valuation sections are not None (absent or
well-shaped is fine), every comparable sale carries a price, the
normalization maximum is nonzero when comparables exist, and each
comparable carries a price-per-sqft figure when the price comparison will
read them; missing or empty sections fall back to the placeholder charts
inside the returned map. -/
theorem C1_orchestrator_no_raise_wellformed (d : PropertyData)
    (hr : d.ratings ≠ .null)
    (hv : d.valuation ≠ .null)
    (hp : ∀ s ∈ compsOfProperty d, s.price.isSome)
    (hmax : compsOfProperty d ≠ [] → maxPriceOf d ≠ 0)
    (hpps : compsOfProperty d ≠ [] → d.sqft.getD 0 ≠ 0 →
      ∀ s ∈ compsOfProperty d, s.price_per_sqft.isSome) :
    ∃ c : Charts, generate_all_charts d = .ok c := by
  obtain ⟨rf, vf, pr, sq⟩ := d
  cases vf with
  | null => exact absurd rfl hv
  | absent =>
    cases rf with
    | null => exact absurd rfl hr
    | absent => exact ⟨_, rfl⟩
    | map m => exact ⟨_, rfl⟩
  | dict r =>
    obtain ⟨v, hv1⟩ := valuation_chart_ok r hp hmax
    obtain ⟨c, hc1⟩ := price_comparison_ok (r.comparable_sales.getD [])
      (pr.getD 0) (sq.getD 0) hpps
    cases rf with
    | null => exact absurd rfl hr
    | absent =>
      exact ⟨_, by
        simp only [generate_all_charts, valuationArg, ratingsArg,
          comparableSalesOf, priceTrendOf, investmentScoreOf, hv1, hc1]
        rfl⟩
    | map m =>
      exact ⟨_, by
        simp only [generate_all_charts, valuationArg, ratingsArg,
          comparableSalesOf, priceTrendOf, investmentScoreOf, hv1, hc1]
        rfl⟩

/-- C1 witness: the amended theorem instantiated at the fully populated
well-formed property record. -/
theorem C1_orchestrator_no_raise_wellformed_witness :
    ∃ c : Charts, generate_all_charts testProperty = .ok c :=
  C1_orchestrator_no_raise_wellformed testProperty
    (by simp [testProperty])
    (by simp [testProperty])
    (by simp [compsOfProperty, testProperty, valuationArg, testValuation, testComparables])
    (fun _ => by
      have hm : maxPriceOf testProperty = 460000 := by
        simp [maxPriceOf, compsOfProperty, listingPriceOf, testProperty, valuationArg,
          testValuation, testComparables, pyMax, max_def, Except.toOption]
        norm_num
      rw [hm]
      norm_num)
    (fun _ _ => by
      simp [compsOfProperty, testProperty, valuationArg, testValuation, testComparables])
